import Mathlib

/-!
Shallow embedding of the object-lifecycle core of a browser physics sandbox:
an `ObjectManager` registry pairing rendering meshes with physics bodies,
a `PhysicsEngine` wrapper over the physics world, and the per-frame loop.

Conventions of the embedding:
* JS numbers are modelled as `ℚ` (the verified code performs only exact
  arithmetic on them: halving sizes, copying coordinates).
* JS heap identity of meshes and bodies is modelled by numeric handles
  (`mid` for meshes, `bid` for bodies), assigned from fresh counters, the
  way the underlying libraries assign ids at construction.  The scene graph
  holds mesh handles; the physics world holds the body records, and a
  tracked object dereferences its body through the world (`findBody`).
* the third-party physics step (`world.step`) is an opaque black box; it is
  modelled as an arbitrary function parameter `StepFun`.
* GPU-side disposal (`geometry.dispose()` / `material.dispose()`) releases
  external resources with no observable state in this model, so it is not
  represented.
-/

/-- Three-component vector (THREE.Vector3 / CANNON.Vec3). -/
structure Vec3 where
  x : ℚ
  y : ℚ
  z : ℚ
deriving DecidableEq

/-- Quaternion (THREE.Quaternion / CANNON.Quaternion). -/
structure Quat where
  x : ℚ
  y : ℚ
  z : ℚ
  w : ℚ
deriving DecidableEq

/-- Default quaternion of a freshly constructed mesh or body. -/
def Quat.identity : Quat := ⟨0, 0, 0, 1⟩

def Vec3.zero : Vec3 := ⟨0, 0, 0⟩

/-- Geometry constructed for a mesh, with the constructor arguments used by
the source (`THREE.BoxGeometry(size, size, size)`,
`THREE.SphereGeometry(radius, 32, 32)`,
`THREE.CylinderGeometry(radius, radius, height, 32)`,
`THREE.ConeGeometry(radius, height, 32)`,
`THREE.TorusGeometry(radius, tube, 16, 100)`). -/
inductive Geometry where
  | boxGeometry (width height depth : ℚ)
  | sphereGeometry (radius : ℚ) (widthSegments heightSegments : ℕ)
  | cylinderGeometry (radiusTop radiusBottom height : ℚ) (radialSegments : ℕ)
  | coneGeometry (radius height : ℚ) (radialSegments : ℕ)
  | torusGeometry (radius tube : ℚ) (radialSegments tubularSegments : ℕ)
deriving DecidableEq

/-- Material parameters used by every mesh creator in the source
(`THREE.MeshStandardMaterial` with color, metalness 0.3, roughness 0.6). -/
structure Material where
  color : ℕ
  metalness : ℚ
  roughness : ℚ
deriving DecidableEq

/-- A rendering mesh.  `mid` is the heap identity the rendering library
assigns at construction. -/
structure Mesh where
  mid : ℕ
  geometry : Geometry
  material : Material
  position : Vec3
  quaternion : Quat
  castShadow : Bool
  receiveShadow : Bool
deriving DecidableEq

/-- Collision shape actually constructed by the engine wrapper
(`CANNON.Box` stores half extents, `CANNON.Sphere` a radius,
`CANNON.Cylinder` two radii, a height and a segment count,
`CANNON.Plane` the ground). -/
inductive CannonShape where
  | box (halfX halfY halfZ : ℚ)
  | sphere (radius : ℚ)
  | cylinder (radiusTop radiusBottom height : ℚ) (numSegments : ℕ)
  | plane
deriving DecidableEq

/-- A physics body.  `bid` is the heap identity the physics library assigns
at construction. -/
structure Body where
  bid : ℕ
  mass : ℚ
  position : Vec3
  quaternion : Quat
  angularVelocity : Vec3
  linearDamping : ℚ
  angularDamping : ℚ
  shapes : List CannonShape
deriving DecidableEq

/-- Shape description record passed from `ObjectManager.createObject` to
`PhysicsEngine.createBody`.  In JS this is an object literal with a `type`
string tag and the numeric fields the corresponding branch reads; fields a
literal does not set are irrelevant to the branch taken and default to 0. -/
structure ShapeDesc where
  type : String
  size : ℚ := 0
  radius : ℚ := 0
  radiusTop : ℚ := 0
  radiusBottom : ℚ := 0
  height : ℚ := 0
  segments : ℕ := 0
deriving DecidableEq

/-- Engine settings (`this.settings` in the `PhysicsEngine` constructor). -/
structure Settings where
  gravity : Vec3
  restitution : ℚ
  friction : ℚ
  defaultMass : ℚ
deriving DecidableEq

/-- State of the `PhysicsEngine` wrapper: the world's body list plus the
stepping parameters.  `nextBodyId` models the library's id counter. -/
structure PhysicsEngine where
  bodies : List Body
  nextBodyId : ℕ
  timeStep : ℚ
  maxSubSteps : ℕ
  timeScale : ℚ
  isPaused : Bool
  settings : Settings
deriving DecidableEq

/-- The opaque third-party integrator `world.step(timeStep, dt, maxSubSteps)`:
it rewrites the body list and is a black box to this repository. -/
def StepFun : Type := List Body → ℚ → ℚ → ℕ → List Body

/-- Settings installed by the `PhysicsEngine` constructor. -/
def PhysicsEngine.defaultSettings : Settings :=
  { gravity := ⟨0, -49/5, 0⟩
    restitution := 3/10
    friction := 3/10
    defaultMass := 5 }

/-- Ground body from `PhysicsEngine.createGround`: a static (mass 0) plane.
Its quaternion is `setFromEuler(-π/2, 0, 0)`, whose components are
irrational and never read by the verified code, so the value is a
parameter `q`. -/
def groundBody (q : Quat) : Body :=
  { bid := 0
    mass := 0
    position := Vec3.zero
    quaternion := q
    angularVelocity := Vec3.zero
    linearDamping := 1/100
    angularDamping := 1/100
    shapes := [CannonShape.plane] }

/-- World state after `PhysicsEngine.init`: the ground plane is the only
body.  `q` is the ground rotation (see `groundBody`). -/
def PhysicsEngine.initial (q : Quat) : PhysicsEngine :=
  { bodies := [groundBody q]
    nextBodyId := 1
    timeStep := 1/60
    maxSubSteps := 3
    timeScale := 1
    isPaused := false
    settings := PhysicsEngine.defaultSettings }

/-- Embedding of `PhysicsEngine.createBody(shape, mass, position)`: switch on
`shape.type`, defaulting to a unit sphere; build the body at `position` with
the requested mass and add it to the world.  The random initial angular
velocity drawn from `Math.random()` is the parameter `av`.  Returns the body
(the JS return value) together with the updated engine state. -/
def PhysicsEngine.createBody (e : PhysicsEngine) (shape : ShapeDesc) (mass : ℚ)
    (position : Vec3) (av : Vec3) : Body × PhysicsEngine :=
  let cannonShape : CannonShape :=
    if shape.type = "box" then
      CannonShape.box (shape.size / 2) (shape.size / 2) (shape.size / 2)
    else if shape.type = "sphere" then
      CannonShape.sphere shape.radius
    else if shape.type = "cylinder" then
      CannonShape.cylinder shape.radiusTop shape.radiusBottom shape.height shape.segments
    else if shape.type = "cone" then
      CannonShape.cylinder (1/100) shape.radius shape.height shape.segments
    else
      CannonShape.sphere 1
  let body : Body :=
    { bid := e.nextBodyId
      mass := mass
      position := position
      quaternion := Quat.identity
      angularVelocity := av
      linearDamping := 1/10
      angularDamping := 1/10
      shapes := [cannonShape] }
  (body, { e with bodies := e.bodies ++ [body], nextBodyId := e.nextBodyId + 1 })

/-- Embedding of `PhysicsEngine.removeBody(body)`: the library splices out
the first body with this identity, a no-op when absent. -/
def PhysicsEngine.removeBody (e : PhysicsEngine) (bid : ℕ) : PhysicsEngine :=
  { e with bodies := e.bodies.eraseP (fun b => b.bid == bid) }

/-- Embedding of `PhysicsEngine.update(deltaTime)`: unless paused, scale the
frame delta by `timeScale` and hand the world to the integrator. -/
def PhysicsEngine.update (e : PhysicsEngine) (stepW : StepFun) (deltaTime : ℚ) :
    PhysicsEngine :=
  if ¬ e.isPaused then
    let dt := deltaTime * e.timeScale
    { e with bodies := stepW e.bodies e.timeStep dt e.maxSubSteps }
  else
    e

/-- Embedding of `PhysicsEngine.clearAllBodies()`: collect every dynamic
(mass > 0) body, then remove each collected body from the world. -/
def PhysicsEngine.clearAllBodies (e : PhysicsEngine) : PhysicsEngine :=
  let bodiesToRemove := e.bodies.filter (fun b => 0 < b.mass)
  { e with bodies := bodiesToRemove.foldl (fun bs b => bs.erase b) e.bodies }

/-- Dereference a body handle in the world, the way the JS object reference
`obj.body` reaches the body record. -/
def PhysicsEngine.findBody (e : PhysicsEngine) (bid : ℕ) : Option Body :=
  e.bodies.find? (fun b => b.bid == bid)

/-- State of the Scene Host that the registry touches: the scene graph as a
list of mesh handles, plus the library's fresh-id counter for meshes.
Camera, lights and the other fixed scene-setup children are outside the
verified scope and simply occupy handles in `scene`. -/
structure Renderer where
  scene : List ℕ
  nextMeshId : ℕ
deriving DecidableEq

/-- Embedding of `renderer.render()`: the scene content submitted to the
drawing call this frame (camera work and FPS counters are out of scope). -/
def Renderer.render (r : Renderer) : List ℕ := r.scene

/-- The registry entry built by `createObject`: `{ id, type, mesh, body }`.
`body` holds the body's heap identity (see `PhysicsEngine.findBody`). -/
structure TrackedObject where
  id : ℕ
  type : String
  mesh : Mesh
  body : ℕ
deriving DecidableEq

/-- State of `ObjectManager`: the two injected hosts, the ordered object
collection, and the next-id counter. -/
structure ObjectManager where
  physicsEngine : PhysicsEngine
  renderer : Renderer
  objects : List TrackedObject
  objectId : ℕ
deriving DecidableEq

namespace ObjectManager

/-- The color palette `this.colors` (`box ↦ 0x00ff88`, …). -/
def colors (type : String) : Option ℕ :=
  if type = "box" then some 0x00ff88
  else if type = "sphere" then some 0x00d4ff
  else if type = "cylinder" then some 0xb24bf3
  else if type = "cone" then some 0xff6b6b
  else if type = "torus" then some 0xffd93d
  else none

/-- Shared material of all mesh creators. -/
def standardMaterial (color : ℕ) : Material :=
  { color := color, metalness := 3/10, roughness := 6/10 }

/-- Embedding of `createBox(size, color)`.  `mid` is the identity the
rendering library assigns to the new mesh. -/
def createBox (size : ℚ) (color : ℕ) (mid : ℕ) : Mesh :=
  { mid := mid
    geometry := Geometry.boxGeometry size size size
    material := standardMaterial color
    position := Vec3.zero
    quaternion := Quat.identity
    castShadow := true
    receiveShadow := true }

/-- Embedding of `createSphere(radius, color)`. -/
def createSphere (radius : ℚ) (color : ℕ) (mid : ℕ) : Mesh :=
  { mid := mid
    geometry := Geometry.sphereGeometry radius 32 32
    material := standardMaterial color
    position := Vec3.zero
    quaternion := Quat.identity
    castShadow := true
    receiveShadow := true }

/-- Embedding of `createCylinder(radius, height, color)`: note the visual
geometry is built with 32 radial segments. -/
def createCylinder (radius height : ℚ) (color : ℕ) (mid : ℕ) : Mesh :=
  { mid := mid
    geometry := Geometry.cylinderGeometry radius radius height 32
    material := standardMaterial color
    position := Vec3.zero
    quaternion := Quat.identity
    castShadow := true
    receiveShadow := true }

/-- Embedding of `createCone(radius, height, color)`. -/
def createCone (radius height : ℚ) (color : ℕ) (mid : ℕ) : Mesh :=
  { mid := mid
    geometry := Geometry.coneGeometry radius height 32
    material := standardMaterial color
    position := Vec3.zero
    quaternion := Quat.identity
    castShadow := true
    receiveShadow := true }

/-- Embedding of `createTorus(radius, tube, color)`. -/
def createTorus (radius tube : ℚ) (color : ℕ) (mid : ℕ) : Mesh :=
  { mid := mid
    geometry := Geometry.torusGeometry radius tube 16 100
    material := standardMaterial color
    position := Vec3.zero
    quaternion := Quat.identity
    castShadow := true
    receiveShadow := true }

/-- Embedding of `createObject(type, position, size)`.  Switches on the kind;
an unrecognized kind returns `null` before any side effect.  Otherwise the
mesh is added to the scene, the body to the world (via `createBody`), and a
new `TrackedObject` carrying the next id is appended to the collection.
`av` is the random angular velocity drawn inside `createBody` (the source's
default `size = 2` is supplied by callers here).  Returns the JS return
value paired with the updated state. -/
def createObject (mgr : ObjectManager) (type : String) (position : Vec3)
    (size : ℚ) (av : Vec3) : Option TrackedObject × ObjectManager :=
  let color := (colors type).getD 0x00ff88
  let mass := mgr.physicsEngine.settings.defaultMass
  let mid := mgr.renderer.nextMeshId
  let made : Option (Mesh × (Body × PhysicsEngine)) :=
    if type = "box" then
      some (createBox size color mid,
        mgr.physicsEngine.createBody { type := "box", size := size } mass position av)
    else if type = "sphere" then
      some (createSphere (size / 2) color mid,
        mgr.physicsEngine.createBody { type := "sphere", radius := size / 2 } mass position av)
    else if type = "cylinder" then
      some (createCylinder (size / 2) size color mid,
        mgr.physicsEngine.createBody
          { type := "cylinder", radiusTop := size / 2, radiusBottom := size / 2,
            height := size, segments := 8 } mass position av)
    else if type = "cone" then
      some (createCone (size / 2) size color mid,
        mgr.physicsEngine.createBody
          { type := "cone", radius := size / 2, height := size, segments := 8 }
          mass position av)
    else if type = "torus" then
      some (createTorus (size / 2) (size / 4) color mid,
        mgr.physicsEngine.createBody { type := "sphere", radius := size / 2 } mass position av)
    else
      none
  match made with
  | none => (none, mgr)
  | some (mesh, body, engine) =>
    let renderer : Renderer :=
      { scene := mgr.renderer.scene ++ [mesh.mid], nextMeshId := mid + 1 }
    let obj : TrackedObject :=
      { id := mgr.objectId, type := type, mesh := mesh, body := body.bid }
    (some obj,
      { mgr with
          physicsEngine := engine
          renderer := renderer
          objects := mgr.objects ++ [obj]
          objectId := mgr.objectId + 1 })

/-- Embedding of `update()` (the syncAll pass): for each tracked object copy
the body's position and quaternion onto the mesh.  The body is reached
through its handle; a tracked object's body is always present in the world
(lifecycle invariant), so the `none` branch is unreachable in program
states and leaves the mesh unchanged. -/
def update (mgr : ObjectManager) : ObjectManager :=
  { mgr with
      objects := mgr.objects.map (fun obj =>
        match mgr.physicsEngine.findBody obj.body with
        | some b =>
          { obj with mesh :=
              { obj.mesh with position := b.position, quaternion := b.quaternion } }
        | none => obj) }

/-- Embedding of `removeObject(obj)`: detach the mesh from the scene, remove
the body from the world, splice the entry out of the collection when present
(`indexOf` / `splice`, a no-op when absent).  GPU disposal has no observable
state here. -/
def removeObject (mgr : ObjectManager) (obj : TrackedObject) : ObjectManager :=
  { mgr with
      renderer := { mgr.renderer with scene := mgr.renderer.scene.erase obj.mesh.mid }
      physicsEngine := mgr.physicsEngine.removeBody obj.body
      objects := mgr.objects.erase obj }

/-- Embedding of `clearAll()`: iterate `removeObject` over a snapshot
(`[...this.objects]`) of the collection, then ask the engine to drop every
remaining dynamic body. -/
def clearAll (mgr : ObjectManager) : ObjectManager :=
  let cleared := mgr.objects.foldl (fun st obj => st.removeObject obj) mgr
  { cleared with physicsEngine := cleared.physicsEngine.clearAllBodies }

/-- Embedding of `getCount()`. -/
def getCount (mgr : ObjectManager) : ℕ := mgr.objects.length

end ObjectManager

/-- Embedding of the per-frame `animate()` body from the application driver:
step the physics (through the shared engine reference), run the registry
sync pass, then render.  Returns the new state and the scene submitted to
the draw call (stats readout is out of scope). -/
def animate (stepW : StepFun) (st : ObjectManager) (deltaTime : ℚ) :
    ObjectManager × List ℕ :=
  let st1 := { st with physicsEngine := st.physicsEngine.update stepW deltaTime }
  let st2 := st1.update
  (st2, st2.renderer.render)

/-! ### Helper lemmas -/

/-- On any supported kind, `createObject` takes one of the five construction
branches: some mesh carrying the fresh mesh handle and some shape
description with a type the engine recognizes natively, after which the
bookkeeping (scene insert, registry append, id bump) is uniform. -/
theorem ObjectManager.createObject_supported (mgr : ObjectManager) (type : String)
    (position : Vec3) (size : ℚ) (av : Vec3)
    (h : type ∈ (["box", "sphere", "cylinder", "cone", "torus"] : List String)) :
    ∃ mesh : Mesh, ∃ desc : ShapeDesc,
      mesh.mid = mgr.renderer.nextMeshId ∧
      desc.type ∈ (["box", "sphere", "cylinder", "cone"] : List String) ∧
      mgr.createObject type position size av =
        (some { id := mgr.objectId, type := type, mesh := mesh,
                body := mgr.physicsEngine.nextBodyId },
         { mgr with
             physicsEngine := (mgr.physicsEngine.createBody desc
               mgr.physicsEngine.settings.defaultMass position av).2
             renderer := { scene := mgr.renderer.scene ++ [mesh.mid],
                           nextMeshId := mgr.renderer.nextMeshId + 1 }
             objects := mgr.objects ++
               [{ id := mgr.objectId, type := type, mesh := mesh,
                  body := mgr.physicsEngine.nextBodyId }]
             objectId := mgr.objectId + 1 }) := by
  simp only [List.mem_cons, List.mem_singleton, List.not_mem_nil, or_false] at h
  rcases h with rfl | rfl | rfl | rfl | rfl
  · exact ⟨ObjectManager.createBox size ((ObjectManager.colors "box").getD 0x00ff88)
        mgr.renderer.nextMeshId,
      { type := "box", size := size }, rfl, by simp, rfl⟩
  · exact ⟨ObjectManager.createSphere (size / 2)
        ((ObjectManager.colors "sphere").getD 0x00ff88) mgr.renderer.nextMeshId,
      { type := "sphere", radius := size / 2 }, rfl, by simp, rfl⟩
  · exact ⟨ObjectManager.createCylinder (size / 2) size
        ((ObjectManager.colors "cylinder").getD 0x00ff88) mgr.renderer.nextMeshId,
      { type := "cylinder", radiusTop := size / 2, radiusBottom := size / 2,
        height := size, segments := 8 }, rfl, by simp, rfl⟩
  · exact ⟨ObjectManager.createCone (size / 2) size
        ((ObjectManager.colors "cone").getD 0x00ff88) mgr.renderer.nextMeshId,
      { type := "cone", radius := size / 2, height := size, segments := 8 },
      rfl, by simp, rfl⟩
  · exact ⟨ObjectManager.createTorus (size / 2) (size / 4)
        ((ObjectManager.colors "torus").getD 0x00ff88) mgr.renderer.nextMeshId,
      { type := "sphere", radius := size / 2 }, rfl, by simp, rfl⟩

/-- A concrete freshly initialized application state, used to instantiate
theorems with hypotheses at a checkable input (ground rotation taken as the
identity, see `groundBody`). -/
def sampleManager : ObjectManager :=
  { physicsEngine := PhysicsEngine.initial Quat.identity
    renderer := { scene := [], nextMeshId := 0 }
    objects := []
    objectId := 0 }

/-! ### Claims -/

/-- On an unrecognized kind every construction branch is skipped and
`createObject` returns `null` before any side effect. -/
theorem ObjectManager.createObject_not_supported (mgr : ObjectManager) (type : String)
    (position : Vec3) (size : ℚ) (av : Vec3)
    (h : type ∉ (["box", "sphere", "cylinder", "cone", "torus"] : List String)) :
    mgr.createObject type position size av = (none, mgr) := by
  simp only [List.mem_cons, List.not_mem_nil, or_false, not_or] at h
  obtain ⟨h1, h2, h3, h4, h5⟩ := h
  simp [ObjectManager.createObject, h1, h2, h3, h4, h5]

/-- Claim C5: `createObject` with a kind outside the closed shape set
box/sphere/cylinder/cone/torus is rejected: it returns no object (`null`)
and the whole state — registry, scene graph, physics world — is returned
unchanged; the operation is total, so it never throws. -/
theorem createObject_unknown_kind_rejected (mgr : ObjectManager) (type : String)
    (position : Vec3) (size : ℚ) (av : Vec3)
    (h : type ∉ (["box", "sphere", "cylinder", "cone", "torus"] : List String)) :
    (mgr.createObject type position size av).1 = none ∧
      (mgr.createObject type position size av).2 = mgr := by
  rw [ObjectManager.createObject_not_supported mgr type position size av h]
  exact ⟨rfl, rfl⟩

/-- Witness for C5 at the concrete kind "pyramid" on a fresh state. -/
theorem createObject_unknown_kind_rejected_witness :
    (sampleManager.createObject "pyramid" Vec3.zero 2 Vec3.zero).1 = none ∧
      (sampleManager.createObject "pyramid" Vec3.zero 2 Vec3.zero).2 = sampleManager :=
  createObject_unknown_kind_rejected sampleManager "pyramid" Vec3.zero 2 Vec3.zero
    (by decide)

/-- Claim C6: a Sphere spawned with size `s` gets visual geometry of radius
`s/2` and a physics body whose shape is a sphere of radius `s/2` — the mesh
and the collision volume are dimensionally consistent. -/
theorem sphere_dimensional_consistency (mgr : ObjectManager) (position : Vec3)
    (s : ℚ) (av : Vec3) :
    ∃ obj : TrackedObject,
      (mgr.createObject "sphere" position s av).1 = some obj ∧
      obj.mesh.geometry = Geometry.sphereGeometry (s / 2) 32 32 ∧
      ∃ b ∈ (mgr.createObject "sphere" position s av).2.physicsEngine.bodies,
        b.bid = obj.body ∧ b.shapes = [CannonShape.sphere (s / 2)] := by
  refine ⟨_, rfl, rfl,
    (mgr.physicsEngine.createBody { type := "sphere", radius := s / 2 }
      mgr.physicsEngine.settings.defaultMass position av).1, ?_, rfl, rfl⟩
  simp [ObjectManager.createObject, PhysicsEngine.createBody]

/-- Claim C8: a Torus spawned with size `s` gets a physics body whose shape
is a sphere of radius `s/2` — the documented approximation, the engine
having no native torus shape. -/
theorem torus_physics_sphere_approximation (mgr : ObjectManager) (position : Vec3)
    (s : ℚ) (av : Vec3) :
    ∃ obj : TrackedObject,
      (mgr.createObject "torus" position s av).1 = some obj ∧
      obj.mesh.geometry = Geometry.torusGeometry (s / 2) (s / 4) 16 100 ∧
      ∃ b ∈ (mgr.createObject "torus" position s av).2.physicsEngine.bodies,
        b.bid = obj.body ∧ b.shapes = [CannonShape.sphere (s / 2)] := by
  refine ⟨_, rfl, rfl,
    (mgr.physicsEngine.createBody { type := "sphere", radius := s / 2 }
      mgr.physicsEngine.settings.defaultMass position av).1, ?_, rfl, rfl⟩
  simp [ObjectManager.createObject, PhysicsEngine.createBody]

/-- Counterexample to claim C7 as stated: spawning a Cylinder of size 2 on a
fresh state produces a visual geometry with 32 radial segments, not the 8
the claim attributes to the Scene-Host description (8 is the segment count
of the physics shape description). -/
theorem cylinder_scene_segments_counterexample :
    ∃ obj : TrackedObject,
      (sampleManager.createObject "cylinder" Vec3.zero 2 Vec3.zero).1 = some obj ∧
      obj.mesh.geometry = Geometry.cylinderGeometry 1 1 2 32 ∧
      ∀ rt rb h : ℚ, obj.mesh.geometry ≠ Geometry.cylinderGeometry rt rb h 8 := by
  refine ⟨_, rfl, ?_, ?_⟩
  · show Geometry.cylinderGeometry (2 / 2) (2 / 2) 2 32 = _
    norm_num
  · intro rt rb h
    show Geometry.cylinderGeometry (2 / 2) (2 / 2) 2 32 ≠ _
    simp

/-- Claim C7 (amended): a Cylinder spawned with size `s` gets a Scene-Host
geometry with radius `s/2`, height `s` and 32 radial segments, while the
shape description consumed by the Simulation Host carries the same radius
`s/2` and height `s` with 8 segments — dimensionally consistent radii and
heights. -/
theorem cylinder_dimensional_consistency (mgr : ObjectManager) (position : Vec3)
    (s : ℚ) (av : Vec3) :
    ∃ obj : TrackedObject,
      (mgr.createObject "cylinder" position s av).1 = some obj ∧
      obj.mesh.geometry = Geometry.cylinderGeometry (s / 2) (s / 2) s 32 ∧
      ∃ b ∈ (mgr.createObject "cylinder" position s av).2.physicsEngine.bodies,
        b.bid = obj.body ∧
        b.shapes = [CannonShape.cylinder (s / 2) (s / 2) s 8] := by
  refine ⟨_, rfl, rfl,
    (mgr.physicsEngine.createBody
      { type := "cylinder", radiusTop := s / 2, radiusBottom := s / 2,
        height := s, segments := 8 }
      mgr.physicsEngine.settings.defaultMass position av).1, ?_, rfl, rfl⟩
  simp [ObjectManager.createObject, PhysicsEngine.createBody]

/-- Claim C1: for every supported kind, `createObject` increases `getCount`
by exactly 1 and returns a tracked object whose id is strictly greater than
every previously issued id.  Issued ids are exactly those below the
`objectId` counter (the counter only ever increments), so the invariant
`o.id < objectId` for tracked objects characterizes non-reuse; the theorem
shows the invariant and the distinctness of registry ids are preserved. -/
theorem createObject_increments_count_and_issues_fresh_id (mgr : ObjectManager)
    (type : String) (position : Vec3) (size : ℚ) (av : Vec3)
    (hkind : type ∈ (["box", "sphere", "cylinder", "cone", "torus"] : List String))
    (hinv : ∀ o ∈ mgr.objects, o.id < mgr.objectId)
    (hnd : (mgr.objects.map TrackedObject.id).Nodup) :
    ∃ obj : TrackedObject,
      (mgr.createObject type position size av).1 = some obj ∧
      (mgr.createObject type position size av).2.getCount = mgr.getCount + 1 ∧
      obj ∈ (mgr.createObject type position size av).2.objects ∧
      (∀ o ∈ mgr.objects, o.id < obj.id) ∧
      ((mgr.createObject type position size av).2.objects.map TrackedObject.id).Nodup ∧
      (∀ o ∈ (mgr.createObject type position size av).2.objects,
        o.id < (mgr.createObject type position size av).2.objectId) := by
  obtain ⟨mesh, desc, hmid, hdesc, heq⟩ :=
    ObjectManager.createObject_supported mgr type position size av hkind
  rw [heq]
  refine ⟨_, rfl, ?_, ?_, hinv, ?_, ?_⟩
  · simp [ObjectManager.getCount]
  · simp
  · simp only [List.map_append, List.map_cons, List.map_nil]
    refine List.Nodup.append hnd (List.nodup_singleton _) ?_
    intro a ha hb
    simp only [List.mem_singleton] at hb
    subst hb
    simp only [List.mem_map] at ha
    obtain ⟨o, ho, hid⟩ := ha
    exact absurd hid (Nat.ne_of_lt (hinv o ho))
  · intro o ho
    simp only [List.mem_append, List.mem_singleton] at ho
    rcases ho with ho | rfl
    · exact Nat.lt_trans (hinv o ho) (Nat.lt_succ_self _)
    · exact Nat.lt_succ_self _

/-- Witness for C1: spawning a box on a fresh state. -/
theorem createObject_increments_count_witness :
    ∃ obj : TrackedObject,
      (sampleManager.createObject "box" Vec3.zero 2 Vec3.zero).1 = some obj ∧
      (sampleManager.createObject "box" Vec3.zero 2 Vec3.zero).2.getCount =
        sampleManager.getCount + 1 ∧
      obj ∈ (sampleManager.createObject "box" Vec3.zero 2 Vec3.zero).2.objects ∧
      (∀ o ∈ sampleManager.objects, o.id < obj.id) ∧
      (((sampleManager.createObject "box" Vec3.zero 2 Vec3.zero).2.objects.map
        TrackedObject.id).Nodup) ∧
      (∀ o ∈ (sampleManager.createObject "box" Vec3.zero 2 Vec3.zero).2.objects,
        o.id < (sampleManager.createObject "box" Vec3.zero 2 Vec3.zero).2.objectId) :=
  createObject_increments_count_and_issues_fresh_id sampleManager "box" Vec3.zero 2
    Vec3.zero (by decide) (by simp [sampleManager]) (by simp [sampleManager])

/-- Claim C3: `removeObject` decreases `getCount` by exactly 1 when the
object is currently tracked; when it is not tracked (e.g. a second call on
the same reference) the registry is left unchanged — a no-op on the
collection, and total, so it never throws. -/
theorem removeObject_count (mgr : ObjectManager) (obj : TrackedObject) :
    (obj ∈ mgr.objects → (mgr.removeObject obj).getCount = mgr.getCount - 1) ∧
    (obj ∉ mgr.objects →
      (mgr.removeObject obj).objects = mgr.objects ∧
      (mgr.removeObject obj).getCount = mgr.getCount) := by
  constructor
  · intro h
    simp [ObjectManager.removeObject, ObjectManager.getCount,
      List.length_erase_of_mem h]
  · intro h
    simp [ObjectManager.removeObject, ObjectManager.getCount,
      List.erase_of_not_mem h]

/-- The box object spawned by `sampleManager.createObject "box" …` (written
out as a literal so removal can be exercised on it twice). -/
def sampleBox : TrackedObject :=
  { id := 0
    type := "box"
    mesh := ObjectManager.createBox 2 0x00ff88 0
    body := 1 }

/-- State holding exactly the one spawned box. -/
def sampleManagerWithBox : ObjectManager :=
  (sampleManager.createObject "box" ⟨0, 10, 0⟩ 2 Vec3.zero).2

/-- Witness for C3: removing the spawned box decrements the count from 1 to
0, and removing it from the fresh (empty) registry leaves the count at 0. -/
theorem removeObject_count_witness :
    ((sampleManagerWithBox.removeObject sampleBox).getCount =
        sampleManagerWithBox.getCount - 1) ∧
      (sampleManager.removeObject sampleBox).getCount = sampleManager.getCount :=
  ⟨(removeObject_count sampleManagerWithBox sampleBox).1
      (by exact List.mem_singleton.mpr rfl),
    ((removeObject_count sampleManager sampleBox).2
      (by simp [sampleManager])).2⟩

/-- Iterating `removeObject` over a snapshot of the collection empties the
collection: each step erases exactly the head of what remains. -/
theorem foldl_removeObject_objects (objs : List TrackedObject) :
    ∀ st : ObjectManager, st.objects = objs →
      ((objs.foldl (fun s o => s.removeObject o) st)).objects = [] := by
  induction objs with
  | nil => intro st h; simpa using h
  | cons a t ih =>
    intro st h
    simp only [List.foldl_cons]
    refine ih _ ?_
    simp [ObjectManager.removeObject, h, List.erase_cons_head]

/-- A body whose identity is referenced by no object in the snapshot
survives the `removeObject` iteration. -/
theorem mem_bodies_foldl_removeObject (objs : List TrackedObject) :
    ∀ (st : ObjectManager) (b : Body), b ∈ st.physicsEngine.bodies →
      (∀ o ∈ objs, b.bid ≠ o.body) →
      b ∈ ((objs.foldl (fun s o => s.removeObject o) st)).physicsEngine.bodies := by
  induction objs with
  | nil => intro st b hb _; simpa using hb
  | cons a t ih =>
    intro st b hb hne
    simp only [List.foldl_cons]
    refine ih _ b ?_ (fun o ho => hne o (List.mem_cons_of_mem a ho))
    simp only [ObjectManager.removeObject, PhysicsEngine.removeBody]
    refine (List.mem_eraseP_of_neg ?_).2 hb
    simpa using hne a (List.mem_cons_self a t)

/-- Erasing a list of elements all different from `x` never touches a
leading `x`. -/
theorem foldl_erase_cons_of_forall_ne {α : Type} [DecidableEq α] (x : α) :
    ∀ (s acc : List α), (∀ y ∈ s, y ≠ x) →
      s.foldl (fun l b => l.erase b) (x :: acc) =
        x :: s.foldl (fun l b => l.erase b) acc := by
  intro s
  induction s with
  | nil => intro acc _; rfl
  | cons y s' ih =>
    intro acc h
    simp only [List.foldl_cons]
    rw [List.erase_cons_tail (by simp [(h y (List.mem_cons_self y s')).symm]),
      ih _ (fun z hz => h z (List.mem_cons_of_mem y hz))]

/-- Collecting the elements satisfying `p` and erasing each of them from the
original list leaves exactly the elements not satisfying `p` — the
remove-collected-bodies pattern of `clearAllBodies`. -/
theorem foldl_erase_filter {α : Type} [DecidableEq α] (p : α → Bool) :
    ∀ l : List α,
      (l.filter p).foldl (fun acc b => acc.erase b) l = l.filter (fun b => ! p b) := by
  intro l
  induction l with
  | nil => rfl
  | cons x t ih =>
    by_cases hp : p x
    · rw [List.filter_cons_of_pos hp, List.foldl_cons, List.erase_cons_head, ih,
        List.filter_cons_of_neg (by simp [hp])]
    · rw [List.filter_cons_of_neg (by simpa using hp),
        foldl_erase_cons_of_forall_ne x _ t ?_, ih,
        List.filter_cons_of_pos (by simpa using hp)]
      intro y hy
      rcases List.mem_filter.1 hy with ⟨-, hpy⟩
      intro hyx
      rw [hyx] at hpy
      exact hp hpy

/-- Claim C4: from any registry state, `clearAll` results in `getCount = 0`
and leaves no dynamic (mass > 0) body in the simulation world; a static
body — the ground, referenced by no tracked object — is preserved. -/
theorem clearAll_empties_registry_and_dynamic_bodies (mgr : ObjectManager)
    (b : Body) (hmass : b.mass = 0) (hb : b ∈ mgr.physicsEngine.bodies)
    (href : ∀ o ∈ mgr.objects, b.bid ≠ o.body) :
    mgr.clearAll.getCount = 0 ∧
      (∀ b' ∈ mgr.clearAll.physicsEngine.bodies, ¬ 0 < b'.mass) ∧
      b ∈ mgr.clearAll.physicsEngine.bodies := by
  have hclear : ∀ st : ObjectManager,
      st.physicsEngine.clearAllBodies.bodies =
        st.physicsEngine.bodies.filter (fun x => ! decide (0 < x.mass)) := by
    intro st
    exact foldl_erase_filter (fun x => decide (0 < x.mass)) st.physicsEngine.bodies
  refine ⟨?_, ?_, ?_⟩
  · have h0 := foldl_removeObject_objects mgr.objects mgr rfl
    simp [ObjectManager.clearAll, ObjectManager.getCount, h0]
  · intro b' hb'
    simp only [ObjectManager.clearAll] at hb'
    rw [hclear] at hb'
    rcases List.mem_filter.1 hb' with ⟨-, hp⟩
    simpa using hp
  · have hmem := mem_bodies_foldl_removeObject mgr.objects mgr b hb href
    simp only [ObjectManager.clearAll]
    rw [hclear]
    refine List.mem_filter.2 ⟨hmem, ?_⟩
    simp [hmass]

/-- Witness for C4: clearing the one-box state empties the registry, leaves
no dynamic body, and keeps the static ground plane. -/
theorem clearAll_empties_witness :
    sampleManagerWithBox.clearAll.getCount = 0 ∧
      (∀ b' ∈ sampleManagerWithBox.clearAll.physicsEngine.bodies, ¬ 0 < b'.mass) ∧
      groundBody Quat.identity ∈ sampleManagerWithBox.clearAll.physicsEngine.bodies :=
  clearAll_empties_registry_and_dynamic_bodies sampleManagerWithBox
    (groundBody Quat.identity) rfl
    (by exact List.mem_cons_self _ _)
    (by
      intro o ho
      rcases List.mem_singleton.1 ho with rfl
      decide)

/-- Claim C2: after one `update` (the syncAll pass), every tracked object's
mesh position and quaternion exactly equal its physics body's position and
quaternion at the time of the call; the call creates and destroys nothing —
the world's body list, the scene graph, and the registry entries (ids, mesh
handles, body handles) are all unchanged. -/
theorem update_syncs_mesh_to_body (mgr : ObjectManager)
    (h : ∀ o ∈ mgr.objects, (mgr.physicsEngine.findBody o.body).isSome) :
    mgr.update.physicsEngine = mgr.physicsEngine ∧
      mgr.update.renderer = mgr.renderer ∧
      mgr.update.objects.map TrackedObject.id = mgr.objects.map TrackedObject.id ∧
      mgr.update.objects.map (fun o => o.mesh.mid) =
        mgr.objects.map (fun o => o.mesh.mid) ∧
      mgr.update.objects.map TrackedObject.body = mgr.objects.map TrackedObject.body ∧
      ∀ o ∈ mgr.update.objects, ∃ b : Body,
        mgr.physicsEngine.findBody o.body = some b ∧
        o.mesh.position = b.position ∧ o.mesh.quaternion = b.quaternion := by
  refine ⟨rfl, rfl, ?_, ?_, ?_, ?_⟩
  · simp only [ObjectManager.update, List.map_map]
    refine List.map_congr_left ?_
    intro o _
    cases hfb : mgr.physicsEngine.findBody o.body <;> simp [hfb]
  · simp only [ObjectManager.update, List.map_map]
    refine List.map_congr_left ?_
    intro o _
    cases hfb : mgr.physicsEngine.findBody o.body <;> simp [hfb]
  · simp only [ObjectManager.update, List.map_map]
    refine List.map_congr_left ?_
    intro o _
    cases hfb : mgr.physicsEngine.findBody o.body <;> simp [hfb]
  · intro o ho
    simp only [ObjectManager.update, List.mem_map] at ho
    obtain ⟨o₀, ho₀, rfl⟩ := ho
    obtain ⟨b, hb⟩ := Option.isSome_iff_exists.1 (h o₀ ho₀)
    refine ⟨b, ?_, ?_, ?_⟩ <;> simp [hb]

/-- Witness for C2 on the one-box state (its body is in the world). -/
theorem update_syncs_mesh_to_body_witness :
    sampleManagerWithBox.update.physicsEngine = sampleManagerWithBox.physicsEngine ∧
      sampleManagerWithBox.update.renderer = sampleManagerWithBox.renderer ∧
      sampleManagerWithBox.update.objects.map TrackedObject.id =
        sampleManagerWithBox.objects.map TrackedObject.id ∧
      sampleManagerWithBox.update.objects.map (fun o => o.mesh.mid) =
        sampleManagerWithBox.objects.map (fun o => o.mesh.mid) ∧
      sampleManagerWithBox.update.objects.map TrackedObject.body =
        sampleManagerWithBox.objects.map TrackedObject.body ∧
      ∀ o ∈ sampleManagerWithBox.update.objects, ∃ b : Body,
        sampleManagerWithBox.physicsEngine.findBody o.body = some b ∧
        o.mesh.position = b.position ∧ o.mesh.quaternion = b.quaternion :=
  update_syncs_mesh_to_body sampleManagerWithBox
    (by
      intro o ho
      rcases List.mem_singleton.1 ho with rfl
      rfl)

/-- Claim C9: with the pause flag set, `PhysicsEngine.update` skips the
simulation step entirely and leaves the engine (in particular the world's
bodies) unchanged, for every integrator and frame delta; the frame loop
still performs the registry sync pass and submits the scene to the render
call. -/
theorem paused_update_skips_step_but_syncs_and_renders (stepW : StepFun)
    (st : ObjectManager) (deltaTime : ℚ)
    (h : st.physicsEngine.isPaused = true) :
    st.physicsEngine.update stepW deltaTime = st.physicsEngine ∧
      animate stepW st deltaTime = (st.update, st.update.renderer.render) ∧
      (animate stepW st deltaTime).1.physicsEngine = st.physicsEngine := by
  have h1 : st.physicsEngine.update stepW deltaTime = st.physicsEngine := by
    simp [PhysicsEngine.update, h]
  refine ⟨h1, ?_, ?_⟩
  · simp [animate, h1]
  · simp [animate, h1, ObjectManager.update]

/-- Paused variant of the one-box state. -/
def pausedManagerWithBox : ObjectManager :=
  { sampleManagerWithBox with
      physicsEngine := { sampleManagerWithBox.physicsEngine with isPaused := true } }

/-- An arbitrary concrete integrator (drops every body) to instantiate the
black-box step parameter. -/
def dropAllStep : StepFun := fun _ _ _ _ => []

/-- Witness for C9 on the paused one-box state with a concrete integrator
that would visibly change the world if it ran. -/
theorem paused_update_skips_step_witness :
    pausedManagerWithBox.physicsEngine.update dropAllStep 1 =
        pausedManagerWithBox.physicsEngine ∧
      animate dropAllStep pausedManagerWithBox 1 =
        (pausedManagerWithBox.update, pausedManagerWithBox.update.renderer.render) ∧
      (animate dropAllStep pausedManagerWithBox 1).1.physicsEngine =
        pausedManagerWithBox.physicsEngine :=
  paused_update_skips_step_but_syncs_and_renders dropAllStep pausedManagerWithBox 1 rfl

/-- Claim C10 (implicit): `PhysicsEngine.createBody` with a shape type
outside box/sphere/cylinder/cone does not reject — it silently builds a
body with a sphere shape of radius 1 and appends it to the world; and this
fallback branch is unreachable from the registry: every `createObject` call
either changes no engine state (unknown kind, rejected before reaching the
engine) or routes through `createBody` with a shape description whose type
is in the recognized set. -/
theorem createBody_fallback_sphere_and_unreachable_from_registry
    (e : PhysicsEngine) (shape : ShapeDesc) (mass : ℚ) (position av : Vec3)
    (mgr : ObjectManager) (type : String) (position2 : Vec3) (size : ℚ) (av2 : Vec3)
    (hshape : shape.type ∉ (["box", "sphere", "cylinder", "cone"] : List String)) :
    ((e.createBody shape mass position av).1.shapes = [CannonShape.sphere 1] ∧
      (e.createBody shape mass position av).2.bodies =
        e.bodies ++ [(e.createBody shape mass position av).1]) ∧
    ((mgr.createObject type position2 size av2).2.physicsEngine = mgr.physicsEngine ∨
      ∃ desc : ShapeDesc,
        desc.type ∈ (["box", "sphere", "cylinder", "cone"] : List String) ∧
        (mgr.createObject type position2 size av2).2.physicsEngine =
          (mgr.physicsEngine.createBody desc
            mgr.physicsEngine.settings.defaultMass position2 av2).2) := by
  constructor
  · simp only [List.mem_cons, List.not_mem_nil, or_false, not_or] at hshape
    obtain ⟨h1, h2, h3, h4⟩ := hshape
    constructor
    · simp [PhysicsEngine.createBody, h1, h2, h3, h4]
    · simp [PhysicsEngine.createBody, h1, h2, h3, h4]
  · by_cases hk : type ∈ (["box", "sphere", "cylinder", "cone", "torus"] : List String)
    · obtain ⟨mesh, desc, -, hdesc, heq⟩ :=
        ObjectManager.createObject_supported mgr type position2 size av2 hk
      refine Or.inr ⟨desc, hdesc, ?_⟩
      rw [heq]
    · rw [ObjectManager.createObject_not_supported mgr type position2 size av2 hk]
      exact Or.inl rfl

/-- Witness for C10: a "torus" shape description reaches the fallback (the
registry never sends one — it sends "sphere" for a torus), and a concrete
registry spawn of a torus leaves the engine reachable only through a
recognized shape description. -/
theorem createBody_fallback_sphere_witness :
    (((PhysicsEngine.initial Quat.identity).createBody { type := "torus" } 5
        Vec3.zero Vec3.zero).1.shapes = [CannonShape.sphere 1] ∧
      ((PhysicsEngine.initial Quat.identity).createBody { type := "torus" } 5
        Vec3.zero Vec3.zero).2.bodies =
        (PhysicsEngine.initial Quat.identity).bodies ++
          [((PhysicsEngine.initial Quat.identity).createBody { type := "torus" } 5
            Vec3.zero Vec3.zero).1]) ∧
    ((sampleManager.createObject "torus" Vec3.zero 2 Vec3.zero).2.physicsEngine =
        sampleManager.physicsEngine ∨
      ∃ desc : ShapeDesc,
        desc.type ∈ (["box", "sphere", "cylinder", "cone"] : List String) ∧
        (sampleManager.createObject "torus" Vec3.zero 2 Vec3.zero).2.physicsEngine =
          (sampleManager.physicsEngine.createBody desc
            sampleManager.physicsEngine.settings.defaultMass Vec3.zero Vec3.zero).2) :=
  createBody_fallback_sphere_and_unreachable_from_registry
    (PhysicsEngine.initial Quat.identity) { type := "torus" } 5 Vec3.zero Vec3.zero
    sampleManager "torus" Vec3.zero 2 Vec3.zero (by decide)
